import Mathlib

/-!
Shallow embedding of the web service in `apps/api-python/app/main.py`.

The module creates a FastAPI application object, registers the single route
`GET /` with the decorator on `read_root`, and `read_root` returns the fixed
dict with the two entries `service = "api-python"` and `status = "ok"`.
Python dicts preserve insertion order, so the returned mapping is an ordered
association list here.

Dispatch of a request against the registered route table, and the rendering
of a plain dict return value as a JSON body with status 200, follow the host
framework's (FastAPI / Starlette) documented behavior: a request whose path
and method both match a registered route is handled by that route's handler;
a request whose path matches no registered route falls to the framework's
default not-found response (status 404); a request whose path matches a
route but whose method does not falls to the framework's default
method-not-allowed response (status 405).  The framework serializes a dict
return value with compact separators and the dict's own key order.
-/

namespace ApiPython

/-- An inbound HTTP request as seen by routing: method, path, and the
parts the application never consumes (headers and body). -/
structure Request where
  method : String
  path : String
  headers : List (String × String)
  body : String
  deriving DecidableEq, Repr

/-- The handler bound to `GET /` (`read_root` in the source): it takes no
arguments and returns the fixed two-field mapping, in insertion order. -/
def read_root : List (String × String) :=
  [("service", "api-python"), ("status", "ok")]

/-- A registered route: HTTP method and path. -/
structure Route where
  method : String
  path : String
  deriving DecidableEq, Repr

/-- The application route table: the decorator `app.get` applied at path `/`
registers exactly one route, `GET /`, whose handler is `read_root`. -/
def routes : List Route :=
  [⟨"GET", "/"⟩]

/-- Framework default outcomes for requests no application handler takes. -/
inductive FrameworkDefault where
  | notFound
  | methodNotAllowed
  deriving DecidableEq, Repr

/-- Outcome of dispatching one request: handled by application logic with a
status code and a body mapping, or left to a framework default. -/
inductive HandlerResult where
  | handled (status : Nat) (body : List (String × String))
  | unhandled (d : FrameworkDefault)
  deriving DecidableEq, Repr

/-- True when some route of the table matches the request path. -/
def pathMatched (rs : List Route) (req : Request) : Bool :=
  rs.any fun r => r.path == req.path

/-- True when some route of the table matches both path and method. -/
def routeMatched (rs : List Route) (req : Request) : Bool :=
  rs.any fun r => r.path == req.path && r.method == req.method

/-- Request dispatch over a route table.  A full match runs the matched
handler — the only registered route is `GET /` with handler `read_root`,
and a plain dict return value becomes a 200 response.  A path-only match
falls to the framework's method-not-allowed default, and no match falls to
the framework's not-found default. -/
def dispatchWith (rs : List Route) (req : Request) : HandlerResult :=
  if routeMatched rs req then HandlerResult.handled 200 read_root
  else if pathMatched rs req then HandlerResult.unhandled FrameworkDefault.methodNotAllowed
  else HandlerResult.unhandled FrameworkDefault.notFound

/-- Dispatch against the application's route table. -/
def dispatch (req : Request) : HandlerResult :=
  dispatchWith routes req

/-- JSON quoting for the plain identifier strings appearing here. -/
def quoteStr (s : String) : String :=
  "\"" ++ s ++ "\""

/-- One serialized field of the body, with the compact separator the
framework emits. -/
def serializeField (kv : String × String) : String :=
  quoteStr kv.1 ++ ":" ++ quoteStr kv.2

/-- Serialized body of an ordered mapping: fields in list order, compact
separators, surrounded by braces. -/
def serializeBody (fields : List (String × String)) : String :=
  "\x7b" ++ String.intercalate "," (fields.map serializeField) ++ "\x7d"

/-- Bytes on the wire for each dispatch outcome, the framework's default
bodies included. -/
def serializeResult : HandlerResult → String
  | HandlerResult.handled _ b => serializeBody b
  | HandlerResult.unhandled FrameworkDefault.notFound => "\x7b\"detail\":\"Not Found\"\x7d"
  | HandlerResult.unhandled FrameworkDefault.methodNotAllowed => "\x7b\"detail\":\"Method Not Allowed\"\x7d"

/-- Status code of each dispatch outcome. -/
def statusOf : HandlerResult → Nat
  | HandlerResult.handled s _ => s
  | HandlerResult.unhandled FrameworkDefault.notFound => 404
  | HandlerResult.unhandled FrameworkDefault.methodNotAllowed => 405

/-- Body mapping of an application-handled outcome, none on fall-through. -/
def bodyOf : HandlerResult → Option (List (String × String))
  | HandlerResult.handled _ b => some b
  | HandlerResult.unhandled _ => none

/-- Serving a sequence of requests maps dispatch over the sequence: the
application keeps no state between requests. -/
def serve (reqs : List Request) : List HandlerResult :=
  reqs.map dispatch

/-- The process-wide application object `app`: it holds only the route
table registered at module load. -/
structure AppState where
  routeTable : List Route
  deriving DecidableEq, Repr

/-- The application state as built by the module: the one registered
route. -/
def initApp : AppState :=
  ⟨routes⟩

/-- One request-handling step over the application state.  `read_root`
reads and writes no program state, so the state passes through unchanged
and the outcome is dispatch against the held route table. -/
def appStep (st : AppState) (req : Request) : AppState × HandlerResult :=
  (st, dispatchWith st.routeTable req)

/-- Helper: a GET request to the root path takes the registered route and
runs `read_root`. -/
theorem dispatch_get_root (req : Request)
    (hm : req.method = "GET") (hp : req.path = "/") :
    dispatch req = HandlerResult.handled 200 read_root := by
  simp [dispatch, dispatchWith, routeMatched, routes, hm, hp]

/-- Helper: a request to any other path matches no route and falls to the
framework's not-found default. -/
theorem dispatch_other_path (req : Request) (hp : req.path ≠ "/") :
    dispatch req = HandlerResult.unhandled FrameworkDefault.notFound := by
  have hb : ("/" == req.path) = false := by
    simp [Ne.symm hp]
  simp [dispatch, dispatchWith, routeMatched, pathMatched, routes, hb]

/-- Helper: a non-GET request to the root path matches the route's path but
not its method and falls to the framework's method-not-allowed default. -/
theorem dispatch_root_other_method (req : Request)
    (hp : req.path = "/") (hm : req.method ≠ "GET") :
    dispatch req = HandlerResult.unhandled FrameworkDefault.methodNotAllowed := by
  have hb : ("GET" == req.method) = false := by
    simp [Ne.symm hm]
  simp [dispatch, dispatchWith, routeMatched, pathMatched, routes, hp, hb]

/-- Helper: every application-handled outcome of dispatch carries status
200 and the body returned by `read_root`. -/
theorem dispatch_handled_inv (req : Request) (s : Nat)
    (b : List (String × String))
    (h : dispatch req = HandlerResult.handled s b) :
    s = 200 ∧ b = read_root := by
  unfold dispatch dispatchWith at h
  split at h
  · exact ⟨(HandlerResult.handled.injEq _ _ _ _ ▸ h).1.symm,
      (HandlerResult.handled.injEq _ _ _ _ ▸ h).2.symm⟩
  · split at h <;> cases h

/-- Claim C1: every valid GET request to the root path is answered with a
body that is exactly the two-field mapping sending `service` to
`api-python` and `status` to `ok`. -/
theorem get_root_body_exact (req : Request)
    (hm : req.method = "GET") (hp : req.path = "/") :
    bodyOf (dispatch req) = some [("service", "api-python"), ("status", "ok")] := by
  rw [dispatch_get_root req hm hp]
  rfl

/-- Witness for C1 at the concrete plain GET request to `/`. -/
theorem get_root_body_exact_witness :
    bodyOf (dispatch ⟨"GET", "/", [], ""⟩) =
      some [("service", "api-python"), ("status", "ok")] :=
  get_root_body_exact ⟨"GET", "/", [], ""⟩ rfl rfl

/-- Claim C2: every valid GET request to the root path is answered with
status code 200. -/
theorem get_root_status_200 (req : Request)
    (hm : req.method = "GET") (hp : req.path = "/") :
    statusOf (dispatch req) = 200 := by
  rw [dispatch_get_root req hm hp]
  rfl

/-- Witness for C2 at the concrete plain GET request to `/`. -/
theorem get_root_status_200_witness :
    statusOf (dispatch ⟨"GET", "/", [], ""⟩) = 200 :=
  get_root_status_200 ⟨"GET", "/", [], ""⟩ rfl rfl

/-- Claim C3: the root endpoint is idempotent — serving any finite sequence
of identical requests yields identical outcomes, and hence byte-identical
serialized responses. -/
theorem serve_idempotent (req : Request) (n : Nat) :
    serve (List.replicate n req) = List.replicate n (dispatch req) ∧
      (serve (List.replicate n req)).map serializeResult =
        List.replicate n (serializeResult (dispatch req)) := by
  refine ⟨List.map_replicate, ?_⟩
  rw [serve, List.map_replicate, List.map_replicate]

/-- Claim C4: the route table holds exactly the one route `GET /`, every
fully matched request is handled by `read_root`, and a request to any other
path is matched by no application handler, falling to the framework's
not-found default. -/
theorem route_table_exact (_ : True) :
    routes = [⟨"GET", "/"⟩] ∧
      (∀ req : Request, routeMatched routes req = true →
        dispatch req = HandlerResult.handled 200 read_root) ∧
      (∀ req : Request, req.path ≠ "/" →
        dispatch req = HandlerResult.unhandled FrameworkDefault.notFound) := by
  refine ⟨rfl, ?_, ?_⟩
  · intro req h
    simp [dispatch, dispatchWith, h]
  · intro req hp
    exact dispatch_other_path req hp

/-- Witness for C4: the route table literal, a matched request on `GET /`,
and the not-found fall-through at the concrete path `/missing`. -/
theorem route_table_exact_witness :
    dispatch ⟨"GET", "/missing", [], ""⟩ =
      HandlerResult.unhandled FrameworkDefault.notFound :=
  (route_table_exact trivial).2.2 ⟨"GET", "/missing", [], ""⟩ (by decide)

/-- Claim C5: on every application-handled response both the `service`
field and the `status` field are present in the body mapping and both
values are non-empty strings. -/
theorem health_fields_present_nonempty (req : Request) (s : Nat)
    (b : List (String × String))
    (h : dispatch req = HandlerResult.handled s b) :
    (∃ v, b.lookup "service" = some v ∧ v ≠ "") ∧
      (∃ v, b.lookup "status" = some v ∧ v ≠ "") := by
  obtain ⟨-, hb⟩ := dispatch_handled_inv req s b h
  subst hb
  exact ⟨⟨"api-python", by decide⟩, ⟨"ok", by decide⟩⟩

/-- Witness for C5 at the concrete plain GET request to `/`. -/
theorem health_fields_present_nonempty_witness :
    (∃ v, (read_root).lookup "service" = some v ∧ v ≠ "") ∧
      (∃ v, (read_root).lookup "status" = some v ∧ v ≠ "") :=
  health_fields_present_nonempty ⟨"GET", "/", [], ""⟩ 200 read_root (by rfl)

/-- Claim C6: noninterference of the handler with respect to its input —
any two GET requests to the root path, whatever their headers, bodies or
other differences, receive the same outcome. -/
theorem handler_noninterference (r₁ r₂ : Request)
    (h₁m : r₁.method = "GET") (h₁p : r₁.path = "/")
    (h₂m : r₂.method = "GET") (h₂p : r₂.path = "/") :
    dispatch r₁ = dispatch r₂ := by
  rw [dispatch_get_root r₁ h₁m h₁p, dispatch_get_root r₂ h₂m h₂p]

/-- Witness for C6: two concrete GET requests to `/` differing in headers
and body receive the same outcome. -/
theorem handler_noninterference_witness :
    dispatch ⟨"GET", "/", [("X-Trace", "1")], "ignored"⟩ =
      dispatch ⟨"GET", "/", [], ""⟩ :=
  handler_noninterference
    ⟨"GET", "/", [("X-Trace", "1")], "ignored"⟩
    ⟨"GET", "/", [], ""⟩ rfl rfl rfl rfl

/-- Claim C7: the handler is pure and stateless — a request-handling step
leaves the application state unchanged, and over the initial state its
outcome is exactly the pure dispatch of the request. -/
theorem handler_state_frame :
    ∀ (st : AppState) (req : Request),
      (appStep st req).1 = st ∧ (appStep initApp req).2 = dispatch req :=
  fun _ _ => ⟨rfl, rfl⟩

/-- Claim C8: the body mapping is ordered with `service` before `status` in
every application-handled response, and the serialized body lists the
`service` field first. -/
theorem body_field_order :
    (∀ (req : Request) (s : Nat) (b : List (String × String)),
        dispatch req = HandlerResult.handled s b →
          b.map Prod.fst = ["service", "status"]) ∧
      serializeBody read_root = "\x7b\"service\":\"api-python\",\"status\":\"ok\"\x7d" := by
  constructor
  · intro req s b h
    obtain ⟨-, hb⟩ := dispatch_handled_inv req s b h
    subst hb
    rfl
  · rfl

/-- Witness for C8: the field order of the concrete handled body. -/
theorem body_field_order_witness :
    (read_root).map Prod.fst = ["service", "status"] :=
  body_field_order.1 ⟨"GET", "/", [], ""⟩ 200 read_root (by rfl)

/-- Claim C9: the handler has no precondition and always completes — every
valid GET request to the root path yields a successful application-handled
outcome with some body, and dispatch is a total function on requests. -/
theorem handler_total_no_error (req : Request)
    (hm : req.method = "GET") (hp : req.path = "/") :
    ∃ b : List (String × String), dispatch req = HandlerResult.handled 200 b :=
  ⟨read_root, dispatch_get_root req hm hp⟩

/-- Witness for C9 at the concrete plain GET request to `/`. -/
theorem handler_total_no_error_witness :
    ∃ b : List (String × String),
      dispatch ⟨"GET", "/", [], ""⟩ = HandlerResult.handled 200 b :=
  handler_total_no_error ⟨"GET", "/", [], ""⟩ rfl rfl

/-- Claim C10: the root path is bound only for GET — every route of the
table uses method GET, and a request to `/` with any other method is not
handled by application logic, falling to the framework's
method-not-allowed default. -/
theorem non_get_falls_to_framework (req : Request)
    (hp : req.path = "/") (hm : req.method ≠ "GET") :
    (∀ r ∈ routes, r.method = "GET") ∧
      dispatch req = HandlerResult.unhandled FrameworkDefault.methodNotAllowed := by
  refine ⟨?_, dispatch_root_other_method req hp hm⟩
  intro r hr
  simp [routes] at hr
  rw [hr]

/-- Witness for C10 at a concrete POST request to `/`. -/
theorem non_get_falls_to_framework_witness :
    dispatch ⟨"POST", "/", [], ""⟩ =
      HandlerResult.unhandled FrameworkDefault.methodNotAllowed :=
  (non_get_falls_to_framework ⟨"POST", "/", [], ""⟩ rfl (by decide)).2

end ApiPython
